import Mathlib

/-!
Shallow embedding of the taskchampion-sync-server storage core
(src/core/src/storage.rs and src/core/src/inmemory.rs).

Modelling choices:
- `Uuid` (128-bit identifier) is modelled as `Nat`; the nil uuid is `0`.
- `DateTime<Utc>` is modelled as an opaque `Int` timestamp (only stored,
  never interpreted by the storage layer).
- `Vec<u8>` payloads are `List Nat` (opaque bytes, never interpreted).
- `u32` arithmetic (`versions_since += 1`) wraps modulo `2 ^ 32`,
  i.e. release-mode Rust semantics.
- `HashMap` is modelled as a function to `Option`, with insert-overwrite
  semantics; `anyhow::Result` becomes `Except StorageError`.
- A transaction method `fn f(&mut self, ...) -> anyhow::Result<T>` becomes
  `f : InnerTxn -> ... -> Except StorageError T × InnerTxn` (explicit state
  passing); the `Drop` impl becomes the predicate `InnerTxn.dropFails`.
-/

/-- 128-bit identifier (uuid::Uuid). The nil uuid is 0. -/
abbrev Uuid := Nat

/-- Wall-clock timestamp (chrono::DateTime<Utc>), opaque to storage. -/
abbrev Timestamp := Int

/-- Opaque byte payload (Vec<u8>). -/
abbrev Bytes := List Nat

/-- Metadata about a snapshot, not including the snapshot data itself
(storage.rs, struct Snapshot). `versions_since` is a u32 in the source;
here a Nat whose increments are taken mod 2 ^ 32. -/
structure Snapshot where
  version_id : Uuid
  timestamp : Timestamp
  versions_since : Nat
  deriving DecidableEq, Repr

/-- Stored metadata about a client (storage.rs, struct Client). -/
structure Client where
  latest_version_id : Uuid
  snapshot : Option Snapshot
  deriving DecidableEq, Repr

/-- A version record (storage.rs, struct Version). -/
structure Version where
  version_id : Uuid
  parent_version_id : Uuid
  history_segment : Bytes
  deriving DecidableEq, Repr

/-- Insert-with-overwrite on a map modelled as a function to Option,
matching HashMap::insert. -/
def mapInsert {α β : Type} [DecidableEq α] (m : α → Option β) (k : α) (v : β) :
    α → Option β :=
  fun k' => if k' = k then some v else m k'

/-- The shared state behind the mutex (inmemory.rs, struct Inner; renamed
here because Mathlib already has an Inner). -/
structure InnerState where
  /-- Clients, indexed by client_id -/
  clients : Uuid → Option Client
  /-- Snapshot data, indexed by client id -/
  snapshots : Uuid → Option Bytes
  /-- Versions, indexed by (client_id, version_id) -/
  versions : Uuid × Uuid → Option Version
  /-- Child versions, indexed by (client_id, parent_version_id) -/
  children : Uuid × Uuid → Option Uuid

/-- The empty state created by InMemoryStorage::new. -/
def InMemoryStorage.new : InnerState :=
  { clients := fun _ => none
    snapshots := fun _ => none
    versions := fun _ => none
    children := fun _ => none }

/-- A transaction handle (inmemory.rs, struct InnerTxn): the guarded state
plus the written/committed flags. -/
structure InnerTxn where
  guard : InnerState
  written : Bool
  committed : Bool

/-- Storage::txn for InMemoryStorage: a fresh transaction over a state. -/
def InnerState.txn (σ : InnerState) : InnerTxn :=
  { guard := σ, written := false, committed := false }

/-- The distinct failure sites of the in-memory backend. The source returns
unstructured anyhow messages; the constructors correspond one-to-one to the
message sites: clientAlreadyExists = "Client {} already exists",
clientNotFound = "no such client" / "Client {} does not exist",
snapshotMismatch = "unexpected snapshot_version_id". -/
inductive StorageError where
  | clientAlreadyExists : StorageError
  | clientNotFound : StorageError
  | snapshotMismatch : StorageError
  deriving DecidableEq, Repr

/-- StorageTxn::get_client for InnerTxn. -/
def InnerTxn.get_client (t : InnerTxn) (client_id : Uuid) :
    Except StorageError (Option Client) × InnerTxn :=
  (.ok (t.guard.clients client_id), t)

/-- StorageTxn::new_client for InnerTxn. -/
def InnerTxn.new_client (t : InnerTxn) (client_id latest_version_id : Uuid) :
    Except StorageError Unit × InnerTxn :=
  if (t.guard.clients client_id).isSome then
    (.error .clientAlreadyExists, t)
  else
    (.ok (),
     { t with
        guard := { t.guard with
          clients := mapInsert t.guard.clients client_id
            { latest_version_id, snapshot := none } }
        written := true })

/-- StorageTxn::set_snapshot for InnerTxn. -/
def InnerTxn.set_snapshot (t : InnerTxn) (client_id : Uuid)
    (snapshot : Snapshot) (data : Bytes) :
    Except StorageError Unit × InnerTxn :=
  match t.guard.clients client_id with
  | none => (.error .clientNotFound, t)
  | some client =>
      (.ok (),
       { t with
          guard := { t.guard with
            clients := mapInsert t.guard.clients client_id
              { client with snapshot := some snapshot }
            snapshots := mapInsert t.guard.snapshots client_id data }
          written := true })

/-- StorageTxn::get_snapshot_data for InnerTxn. -/
def InnerTxn.get_snapshot_data (t : InnerTxn) (client_id version_id : Uuid) :
    Except StorageError (Option Bytes) × InnerTxn :=
  match t.guard.clients client_id with
  | none => (.error .clientNotFound, t)
  | some client =>
      if some version_id ≠ client.snapshot.map (fun snap => snap.version_id) then
        (.error .snapshotMismatch, t)
      else
        (.ok (t.guard.snapshots client_id), t)

/-- StorageTxn::get_version_by_parent for InnerTxn. -/
def InnerTxn.get_version_by_parent (t : InnerTxn) (client_id parent_version_id : Uuid) :
    Except StorageError (Option Version) × InnerTxn :=
  match t.guard.children (client_id, parent_version_id) with
  | some child_id => (.ok (t.guard.versions (client_id, child_id)), t)
  | none => (.ok none, t)

/-- StorageTxn::get_version for InnerTxn. -/
def InnerTxn.get_version (t : InnerTxn) (client_id version_id : Uuid) :
    Except StorageError (Option Version) × InnerTxn :=
  (.ok (t.guard.versions (client_id, version_id)), t)

/-- StorageTxn::add_version for InnerTxn. The source mutates the client in
place (latest_version_id := version_id; versions_since += 1 on the snapshot
if present, a wrapping u32 increment), then inserts into the children and
versions maps. The source does not check whether version_id already exists
(its TODO comment notes this). -/
def InnerTxn.add_version (t : InnerTxn) (client_id version_id parent_version_id : Uuid)
    (history_segment : Bytes) :
    Except StorageError Unit × InnerTxn :=
  let version : Version := { version_id, parent_version_id, history_segment }
  match t.guard.clients client_id with
  | none => (.error .clientNotFound, t)
  | some client =>
      let client' : Client :=
        { client with
            latest_version_id := version_id
            snapshot := client.snapshot.map fun snap =>
              { snap with versions_since := (snap.versions_since + 1) % 4294967296 } }
      (.ok (),
       { t with
          guard := { t.guard with
            clients := mapInsert t.guard.clients client_id client'
            children := mapInsert t.guard.children (client_id, parent_version_id) version_id
            versions := mapInsert t.guard.versions (client_id, version_id) version }
          written := true })

/-- StorageTxn::commit for InnerTxn: records the commit marker and always
succeeds. -/
def InnerTxn.commit (t : InnerTxn) :
    Except StorageError Unit × InnerTxn :=
  (.ok (), { t with committed := true })

/-- The Drop impl for InnerTxn: the drop panics exactly when the transaction
was written to but not committed. -/
def InnerTxn.dropFails (t : InnerTxn) : Bool :=
  t.written && !t.committed

/-- Claim C1: on a fresh store, after new_client(c, v0) then
add_version(c, v1, v0, data): get_client(c) returns a client whose
latest_version_id is v1; get_version_by_parent(c, v0) returns the record
with version_id v1, parent v0 and history_segment data; and
get_version(c, v1) returns that same record. -/
theorem c1_add_version_visible (c v0 v1 : Uuid) (data : Bytes) :
    let t0 := InMemoryStorage.new.txn
    let t1 := (t0.new_client c v0).2
    let t2 := (t1.add_version c v1 v0 data).2
    let r : Version :=
      { version_id := v1, parent_version_id := v0, history_segment := data }
    (∃ cl, (t2.get_client c).1 = .ok (some cl) ∧ cl.latest_version_id = v1) ∧
    (t2.get_version_by_parent c v0).1 = .ok (some r) ∧
    (t2.get_version c v1).1 = .ok (some r) := by
  refine ⟨⟨{ latest_version_id := v1, snapshot := none }, ?_, rfl⟩, ?_, ?_⟩ <;>
    simp [InMemoryStorage.new, InnerState.txn, InnerTxn.new_client, InnerTxn.add_version,
      InnerTxn.get_client, InnerTxn.get_version_by_parent, InnerTxn.get_version,
      mapInsert]

/-- Claim C3: for an existing client, after set_snapshot(c, s, payload),
get_snapshot_data(c, s.version_id) returns the payload, and
get_snapshot_data(c, v') for any other v' fails with SnapshotMismatch. -/
theorem c3_snapshot_roundtrip (t : InnerTxn) (c : Uuid) (s : Snapshot)
    (d : Bytes) (cl : Client) (h : t.guard.clients c = some cl) :
    ((t.set_snapshot c s d).2.get_snapshot_data c s.version_id).1 = .ok (some d) ∧
    ∀ v', v' ≠ s.version_id →
      ((t.set_snapshot c s d).2.get_snapshot_data c v').1 = .error .snapshotMismatch := by
  constructor
  · simp [InnerTxn.set_snapshot, InnerTxn.get_snapshot_data, h, mapInsert]
  · intro v' hv'
    simp [InnerTxn.set_snapshot, InnerTxn.get_snapshot_data, h, mapInsert, hv']

/-- Witness for C3 at a concrete store: client 0 exists after new_client. -/
theorem c3_snapshot_roundtrip_witness :
    (((InMemoryStorage.new.txn.new_client 0 0).2.set_snapshot 0
        { version_id := 7, timestamp := 0, versions_since := 0 }
        [1, 2]).2.get_snapshot_data 0 7).1 = .ok (some [1, 2]) ∧
    ∀ v', v' ≠ 7 →
      (((InMemoryStorage.new.txn.new_client 0 0).2.set_snapshot 0
          { version_id := 7, timestamp := 0, versions_since := 0 }
          [1, 2]).2.get_snapshot_data 0 v').1 = .error .snapshotMismatch :=
  c3_snapshot_roundtrip (InMemoryStorage.new.txn.new_client 0 0).2 0
    { version_id := 7, timestamp := 0, versions_since := 0 } [1, 2]
    { latest_version_id := 0, snapshot := none } rfl

/-- Claim C4: new_client on an absent client id succeeds and creates
{latest_version_id := v0, snapshot := none}; a second new_client fails with
ClientAlreadyExists; and on a never-created client, get_client returns none
while add_version, set_snapshot and get_snapshot_data fail with
ClientNotFound. -/
theorem c4_client_lifecycle (t : InnerTxn) (c v0 : Uuid)
    (h : t.guard.clients c = none) :
    (t.new_client c v0).1 = .ok () ∧
    ((t.new_client c v0).2.get_client c).1 =
      .ok (some { latest_version_id := v0, snapshot := none }) ∧
    (∀ w, ((t.new_client c v0).2.new_client c w).1 = .error .clientAlreadyExists) ∧
    (t.get_client c).1 = .ok none ∧
    (∀ v p d, (t.add_version c v p d).1 = .error .clientNotFound) ∧
    (∀ s d, (t.set_snapshot c s d).1 = .error .clientNotFound) ∧
    (∀ v, (t.get_snapshot_data c v).1 = .error .clientNotFound) := by
  refine ⟨?_, ?_, ?_, ?_, ?_, ?_, ?_⟩ <;>
    simp [InnerTxn.new_client, InnerTxn.get_client, InnerTxn.add_version,
      InnerTxn.set_snapshot, InnerTxn.get_snapshot_data, h, mapInsert]

/-- Witness for C4 on the fresh store with client 0. -/
theorem c4_client_lifecycle_witness :
    ((InMemoryStorage.new.txn.new_client 0 1).2.new_client 0 5).1 =
      .error .clientAlreadyExists ∧
    (InMemoryStorage.new.txn.get_snapshot_data 0 0).1 = .error .clientNotFound :=
  ⟨(c4_client_lifecycle InMemoryStorage.new.txn 0 1 rfl).2.2.1 5,
   (c4_client_lifecycle InMemoryStorage.new.txn 0 1 rfl).2.2.2.2.2.2 0⟩

/-- Claim C9: for an existing client with no snapshot, get_snapshot_data
fails with SnapshotMismatch for every expected version id (the nil id
included); it never returns an absent payload in that case. -/
theorem c9_absent_snapshot_is_mismatch (t : InnerTxn) (c : Uuid) (cl : Client)
    (h : t.guard.clients c = some cl) (hs : cl.snapshot = none) (v : Uuid) :
    (t.get_snapshot_data c v).1 = .error .snapshotMismatch := by
  simp [InnerTxn.get_snapshot_data, h, hs]

/-- Witness for C9: freshly created client 0 queried at the nil uuid. -/
theorem c9_absent_snapshot_is_mismatch_witness :
    ((InMemoryStorage.new.txn.new_client 0 3).2.get_snapshot_data 0 0).1 =
      .error .snapshotMismatch :=
  c9_absent_snapshot_is_mismatch (InMemoryStorage.new.txn.new_client 0 3).2 0
    { latest_version_id := 3, snapshot := none } rfl rfl 0

/-- Claim C7: for an existing client, a second add_version with the same
parent overwrites the parent-to-child index entry: get_version_by_parent
afterwards returns the second version's record, without failing. -/
theorem c7_parent_link_overwritten (t : InnerTxn) (c p v1 v2 : Uuid)
    (d1 d2 : Bytes) (cl : Client) (h : t.guard.clients c = some cl)
    (hne : v2 ≠ v1) :
    (((t.add_version c v1 p d1).2.add_version c v2 p d2).2.get_version_by_parent
        c p).1 =
      .ok (some { version_id := v2, parent_version_id := p, history_segment := d2 }) := by
  simp [InnerTxn.add_version, InnerTxn.get_version_by_parent, h, mapInsert]

/-- Witness for C7: client 0, parent 1, children 2 then 3. -/
theorem c7_parent_link_overwritten_witness :
    ((((InMemoryStorage.new.txn.new_client 0 1).2.add_version 0 2 1 [5]).2.add_version
        0 3 1 [6]).2.get_version_by_parent 0 1).1 =
      .ok (some { version_id := 3, parent_version_id := 1, history_segment := [6] }) :=
  c7_parent_link_overwritten (InMemoryStorage.new.txn.new_client 0 1).2 0 1 2 3
    [5] [6] { latest_version_id := 1, snapshot := none } rfl (by decide)

/-- Whether a storage result is Ok (Except.isOk, spelled out). -/
def resultOk {ε α : Type} : Except ε α → Bool
  | .ok _ => true
  | .error _ => false

/-- Claim C2 (amended): a successful add_version on a client with a snapshot
whose versions_since is n stores versions_since = (n + 1) mod 2 ^ 32 (the
source increments a u32), leaving the snapshot's version_id, timestamp and
the snapshot payload store unchanged; on a client without a snapshot the
snapshot stays absent and the payload store is untouched. -/
theorem c2_add_version_snapshot (t : InnerTxn) (c v p : Uuid) (d : Bytes)
    (cl : Client) (h : t.guard.clients c = some cl) :
    (∀ snap, cl.snapshot = some snap →
      (t.add_version c v p d).2.guard.clients c = some
        { latest_version_id := v
          snapshot := some
            { version_id := snap.version_id
              timestamp := snap.timestamp
              versions_since := (snap.versions_since + 1) % 4294967296 } } ∧
      (t.add_version c v p d).2.guard.snapshots = t.guard.snapshots) ∧
    (cl.snapshot = none →
      (t.add_version c v p d).2.guard.clients c = some
        { latest_version_id := v, snapshot := none } ∧
      (t.add_version c v p d).2.guard.snapshots = t.guard.snapshots) := by
  constructor
  · intro snap hsnap
    simp [InnerTxn.add_version, h, hsnap, mapInsert]
  · intro hsnap
    simp [InnerTxn.add_version, h, hsnap, mapInsert]

/-- Witness for C2: client 0 with a snapshot at versions_since 4. -/
theorem c2_add_version_snapshot_witness :
    (((InMemoryStorage.new.txn.new_client 0 1).2.set_snapshot 0
          { version_id := 1, timestamp := 0, versions_since := 4 }
          [9]).2.add_version 0 2 1 []).2.guard.clients 0 = some
      { latest_version_id := 2
        snapshot := some
          { version_id := 1, timestamp := 0, versions_since := (4 + 1) % 4294967296 } } :=
  (((c2_add_version_snapshot
      ((InMemoryStorage.new.txn.new_client 0 1).2.set_snapshot 0
        { version_id := 1, timestamp := 0, versions_since := 4 } [9]).2
      0 2 1 []
      { latest_version_id := 1
        snapshot := some { version_id := 1, timestamp := 0, versions_since := 4 } }
      rfl).1
    { version_id := 1, timestamp := 0, versions_since := 4 } rfl).1)

/-- Counterexample to C2 as stated: with versions_since = 2 ^ 32 - 1 stored,
a successful add_version yields versions_since 0, not 2 ^ 32 (the u32
increment wraps). -/
theorem c2_wrap_counterexample :
    ((((InMemoryStorage.new.txn.new_client 0 1).2.set_snapshot 0
          { version_id := 1, timestamp := 0, versions_since := 4294967295 }
          [9]).2.add_version 0 2 1 []).2.guard.clients 0).map
        (fun cl => cl.snapshot.map fun s => s.versions_since) =
      some (some 0) ∧ (0 : Nat) ≠ 4294967295 + 1 := by
  refine ⟨?_, by decide⟩
  rfl

/-- Claim C5 (code divergence): commit always returns Ok and merely records
the committed flag; invoking it a second time on the same transaction also
returns Ok instead of failing. -/
theorem c5_double_commit_succeeds :
    (InMemoryStorage.new.txn.commit).2.commit.1 = .ok () ∧
    ∀ t : InnerTxn, t.commit.1 = .ok () :=
  ⟨rfl, fun _ => rfl⟩

/-- Claim C6 (code divergence): add_version does not check that version_id
is fresh; a second add_version with an already-used version_id overwrites
the stored record, so get_version afterwards returns the new record rather
than the one first stored. -/
theorem c6_version_overwritten :
    ((((InMemoryStorage.new.txn.new_client 0 9).2.add_version 0 1 0
        [3]).2.get_version 0 1).1 =
      .ok (some { version_id := 1, parent_version_id := 0, history_segment := [3] })) ∧
    (((((InMemoryStorage.new.txn.new_client 0 9).2.add_version 0 1 0
          [3]).2.add_version 0 1 2 [7]).2.get_version 0 1).1 =
      .ok (some { version_id := 1, parent_version_id := 2, history_segment := [7] })) ∧
    ({ version_id := 1, parent_version_id := 2, history_segment := [7] } : Version) ≠
      { version_id := 1, parent_version_id := 0, history_segment := [3] } :=
  ⟨rfl, rfl, by decide⟩

/-- One StorageTxn operation, for reasoning about whole transaction runs. -/
inductive Op where
  | getClient (client_id : Uuid)
  | newClient (client_id latest_version_id : Uuid)
  | setSnapshot (client_id : Uuid) (snapshot : Snapshot) (data : Bytes)
  | getSnapshotData (client_id version_id : Uuid)
  | getVersionByParent (client_id parent_version_id : Uuid)
  | getVersion (client_id version_id : Uuid)
  | addVersion (client_id version_id parent_version_id : Uuid) (history_segment : Bytes)
  | commit
  deriving DecidableEq, Repr

/-- The write operations of the contract (new_client, set_snapshot,
add_version). -/
def Op.isWrite : Op → Bool
  | .newClient _ _ | .setSnapshot _ _ _ | .addVersion _ _ _ _ => true
  | _ => false

/-- Whether an operation is the commit marker. -/
def Op.isCommit : Op → Bool
  | .commit => true
  | _ => false

/-- Execute one operation on a transaction, keeping the resulting state. -/
def InnerTxn.applyOp (t : InnerTxn) : Op → InnerTxn
  | .getClient c => (t.get_client c).2
  | .newClient c v => (t.new_client c v).2
  | .setSnapshot c s d => (t.set_snapshot c s d).2
  | .getSnapshotData c v => (t.get_snapshot_data c v).2
  | .getVersionByParent c p => (t.get_version_by_parent c p).2
  | .getVersion c v => (t.get_version c v).2
  | .addVersion c v p d => (t.add_version c v p d).2
  | .commit => t.commit.2

/-- Whether one operation succeeds on the given transaction state. -/
def InnerTxn.opOk (t : InnerTxn) : Op → Bool
  | .getClient c => resultOk (t.get_client c).1
  | .newClient c v => resultOk (t.new_client c v).1
  | .setSnapshot c s d => resultOk (t.set_snapshot c s d).1
  | .getSnapshotData c v => resultOk (t.get_snapshot_data c v).1
  | .getVersionByParent c p => resultOk (t.get_version_by_parent c p).1
  | .getVersion c v => resultOk (t.get_version c v).1
  | .addVersion c v p d => resultOk (t.add_version c v p d).1
  | .commit => resultOk t.commit.1

/-- Execute a sequence of operations. -/
def InnerTxn.run (t : InnerTxn) : List Op → InnerTxn
  | [] => t
  | op :: ops => (t.applyOp op).run ops

/-- Whether some write operation in the sequence succeeds when reached. -/
def InnerTxn.hasSuccessfulWrite : InnerTxn → List Op → Bool
  | _, [] => false
  | t, op :: ops =>
      (op.isWrite && t.opOk op) || (t.applyOp op).hasSuccessfulWrite ops

/-- Whether every write operation in the sequence fails when reached. -/
def InnerTxn.allWriteAttemptsFail : InnerTxn → List Op → Bool
  | _, [] => true
  | t, op :: ops =>
      (!op.isWrite || !t.opOk op) && (t.applyOp op).allWriteAttemptsFail ops

theorem applyOp_written (t : InnerTxn) (op : Op) :
    (t.applyOp op).written = (t.written || (op.isWrite && t.opOk op)) := by
  cases op <;>
    simp only [InnerTxn.applyOp, InnerTxn.opOk, Op.isWrite, InnerTxn.get_client,
      InnerTxn.new_client, InnerTxn.set_snapshot, InnerTxn.get_snapshot_data,
      InnerTxn.get_version_by_parent, InnerTxn.get_version, InnerTxn.add_version,
      InnerTxn.commit, resultOk] <;>
    (repeat' split) <;> simp_all [resultOk]

theorem applyOp_committed (t : InnerTxn) (op : Op) :
    (t.applyOp op).committed = (t.committed || op.isCommit) := by
  cases op <;>
    simp only [InnerTxn.applyOp, InnerTxn.opOk, Op.isCommit, InnerTxn.get_client,
      InnerTxn.new_client, InnerTxn.set_snapshot, InnerTxn.get_snapshot_data,
      InnerTxn.get_version_by_parent, InnerTxn.get_version, InnerTxn.add_version,
      InnerTxn.commit] <;>
    (repeat' split) <;> simp

theorem run_written (t : InnerTxn) (ops : List Op) :
    (t.run ops).written = (t.written || t.hasSuccessfulWrite ops) := by
  induction ops generalizing t with
  | nil => simp [InnerTxn.run, InnerTxn.hasSuccessfulWrite]
  | cons op ops ih =>
      simp [InnerTxn.run, InnerTxn.hasSuccessfulWrite, ih, applyOp_written,
        Bool.or_assoc]

theorem run_committed (t : InnerTxn) (ops : List Op) :
    (t.run ops).committed = (t.committed || ops.any Op.isCommit) := by
  induction ops generalizing t with
  | nil => simp [InnerTxn.run]
  | cons op ops ih =>
      simp [InnerTxn.run, ih, applyOp_committed, Bool.or_assoc]

theorem hasSuccessfulWrite_eq_not_allfail (t : InnerTxn) (ops : List Op) :
    t.hasSuccessfulWrite ops = !t.allWriteAttemptsFail ops := by
  induction ops generalizing t with
  | nil => simp [InnerTxn.hasSuccessfulWrite, InnerTxn.allWriteAttemptsFail]
  | cons op ops ih =>
      simp [InnerTxn.hasSuccessfulWrite, InnerTxn.allWriteAttemptsFail, ih,
        Bool.not_and, Bool.not_or]

theorem hasSuccessfulWrite_false_of_no_writes (ops : List Op)
    (h : ∀ op ∈ ops, op.isWrite = false) :
    ∀ t : InnerTxn, t.hasSuccessfulWrite ops = false := by
  induction ops with
  | nil => intro t; simp [InnerTxn.hasSuccessfulWrite]
  | cons op ops ih =>
      intro t
      have hop := h op (by simp)
      have hrest : ∀ op ∈ ops, Op.isWrite op = false := fun o ho => h o (by simp [ho])
      simp [InnerTxn.hasSuccessfulWrite, hop, ih hrest]

/-- Claim C8: starting from a fresh (unwritten, uncommitted) transaction,
if some write operation succeeds during the run and commit is never invoked,
the drop panics; if the run performs no writes at all (reads only), the drop
raises no error. -/
theorem c8_drop_discipline (t : InnerTxn) (ops : List Op)
    (hc : t.committed = false) (hw : t.written = false) :
    ((t.hasSuccessfulWrite ops = true ∧ ∀ op ∈ ops, op.isCommit = false) →
      (t.run ops).dropFails = true) ∧
    ((∀ op ∈ ops, op.isWrite = false) → (t.run ops).dropFails = false) := by
  constructor
  · rintro ⟨h1, h2⟩
    have hany : ops.any Op.isCommit = false := by
      simp only [List.any_eq_false]
      intro op hop
      simp [h2 op hop]
    simp [InnerTxn.dropFails, run_written, run_committed, hc, h1, hany]
  · intro h
    simp [InnerTxn.dropFails, run_written, hw,
      hasSuccessfulWrite_false_of_no_writes ops h t]

/-- Witness for C8: one successful write without commit panics on drop; a
single read without commit does not. -/
theorem c8_drop_discipline_witness :
    (InMemoryStorage.new.txn.run [Op.newClient 0 1]).dropFails = true ∧
    (InMemoryStorage.new.txn.run [Op.getClient 0]).dropFails = false :=
  ⟨(c8_drop_discipline InMemoryStorage.new.txn [Op.newClient 0 1] rfl rfl).1
      ⟨by decide, by decide⟩,
   (c8_drop_discipline InMemoryStorage.new.txn [Op.getClient 0] rfl rfl).2
      (by decide)⟩

/-- Claim C10: a failing new_client, set_snapshot or add_version returns the
transaction unchanged (all four maps and the written flag); get_snapshot_data
never changes the transaction; and a transaction whose write attempts all
failed, starting unwritten, can be dropped without commit without a panic. -/
theorem c10_failed_ops_change_nothing :
    (∀ (t : InnerTxn) (c v : Uuid),
        resultOk (t.new_client c v).1 = false → (t.new_client c v).2 = t) ∧
    (∀ (t : InnerTxn) (c : Uuid) (s : Snapshot) (d : Bytes),
        resultOk (t.set_snapshot c s d).1 = false → (t.set_snapshot c s d).2 = t) ∧
    (∀ (t : InnerTxn) (c v : Uuid), (t.get_snapshot_data c v).2 = t) ∧
    (∀ (t : InnerTxn) (c v p : Uuid) (d : Bytes),
        resultOk (t.add_version c v p d).1 = false → (t.add_version c v p d).2 = t) ∧
    (∀ (t : InnerTxn) (ops : List Op), t.written = false →
        t.allWriteAttemptsFail ops = true → (t.run ops).dropFails = false) := by
  refine ⟨?_, ?_, ?_, ?_, ?_⟩
  · intro t c v h
    by_cases hc : (t.guard.clients c).isSome = true
    · simp [InnerTxn.new_client, hc]
    · simp [InnerTxn.new_client, hc, resultOk] at h
  · intro t c s d h
    cases hm : t.guard.clients c with
    | none => simp [InnerTxn.set_snapshot, hm]
    | some cl => simp [InnerTxn.set_snapshot, hm, resultOk] at h
  · intro t c v
    cases hm : t.guard.clients c with
    | none => simp [InnerTxn.get_snapshot_data, hm]
    | some cl =>
        simp only [InnerTxn.get_snapshot_data, hm]
        split <;> rfl
  · intro t c v p d h
    cases hm : t.guard.clients c with
    | none => simp [InnerTxn.add_version, hm]
    | some cl => simp [InnerTxn.add_version, hm, resultOk] at h
  · intro t ops hw hf
    simp [InnerTxn.dropFails, run_written, hw,
      hasSuccessfulWrite_eq_not_allfail, hf]

/-- Witness for C10: a duplicate new_client leaves the transaction intact,
and a run of only failing writes drops cleanly without commit. -/
theorem c10_failed_ops_change_nothing_witness :
    ((InMemoryStorage.new.txn.new_client 0 1).2.new_client 0 5).2 =
      (InMemoryStorage.new.txn.new_client 0 1).2 ∧
    (InMemoryStorage.new.txn.run
        [Op.addVersion 3 1 2 [],
         Op.setSnapshot 3 { version_id := 0, timestamp := 0, versions_since := 0 } []]).dropFails
      = false :=
  ⟨c10_failed_ops_change_nothing.1 (InMemoryStorage.new.txn.new_client 0 1).2 0 5
      (by decide),
   c10_failed_ops_change_nothing.2.2.2.2 InMemoryStorage.new.txn
      [Op.addVersion 3 1 2 [],
       Op.setSnapshot 3 { version_id := 0, timestamp := 0, versions_since := 0 } []]
      rfl (by decide)⟩
